import Mathlib

/-
  Verification development for the 3D/4D ultrasound ingestion core of satkit:
  src/satkit/io/ThreeD_ultrasound.py and
  src/satkit/configuration/exclusion_list.py.
  Python numbers are modelled exactly (Nat / Int / Rat), numpy arrays as their
  shape plus C-order flat contents, and raised Python exceptions as Except
  error results.
-/

set_option linter.unusedVariables false

namespace Satkit

/-- A dense numpy-style tensor: its shape together with its C-order (row-major)
flat contents. Sample values are the bytes read by
np.frombuffer(..., dtype=np.uint8). -/
structure Tensor4 where
  shape : List Nat
  flat : List Nat
deriving DecidableEq

/-- Python int(a/b) for integer a, b: exact division truncated toward zero.
Models line 309 of ThreeD_ultrasound.py: interval = int(interval/shape[3]). -/
def pyTrunc (a b : Int) : Int := Int.tdiv a b

/-- np.transpose with no axes argument reverses all axes. For a C-order tensor
of shape [d1, d2, d3, d4] this yields the C-order contents of the
reversed-shape [d4, d3, d2, d1] tensor: entry (i4, i3, i2, i1) of the result
is entry (i1, i2, i3, i4) of the input, at flat C-order position
((i1*d2 + i2)*d3 + i3)*d4 + i4. -/
def transposeRevFlat (d1 d2 d3 d4 : Nat) (flat : List Nat) : List Nat :=
  (List.range d4).flatMap (fun i4 =>
    (List.range d3).flatMap (fun i3 =>
      (List.range d2).flatMap (fun i2 =>
        (List.range d1).map (fun i1 =>
          flat.getD (((i1 * d2 + i2) * d3 + i3) * d4 + i4) 0))))

/-- Embeds ThreeD_Ultrasound._read_3D_ultra (ThreeD_ultrasound.py lines
284-324). Inputs are the three declared inner dimensions (private tag
(0x200d,0x3301)), the declared frame count (tag (0x200d,0x3010) inside the
ultrasound sequence) and the raw sample byte buffer (tag (0x200d,0x300e)).
The numpy failure conditions on this path are modelled as error results:

* interval = int(interval/shape[3]) raises ZeroDivisionError when the declared
  frame count is 0;
* the view data.shape = (frameSize+interval, numberOfFrames) raises ValueError
  unless (frameSize+interval)*numberOfFrames equals the buffer length (for a
  buffer of nonnegative length frameSize+interval is never below 0, because
  interval is at least int(-frameSize*numberOfFrames/numberOfFrames), so the
  numpy -1 wildcard dimension cannot arise here);
* np.take_along_axis raises IndexError when the index column arange(frameSize)
  holds an entry that is out of bounds for the row count, that is when
  0 < frameSize and frameSize+interval < frameSize.

On the success path: the 2D view is C-order, so data[r, c] =
buf[r*numberOfFrames + c]; keeping the rows r < frameSize (what
np.take_along_axis with index repmat(arange(frameSize)) does) therefore keeps
exactly the first frameSize*numberOfFrames buffer bytes in order. The
assignment data.shape = shape relabels them as a C-order
[d1, d2, d3, numberOfFrames] tensor and np.transpose reverses the axes. -/
def read_3D_ultra (d1 d2 d3 numberOfFrames : Nat) (buf : List Nat) :
    Except String Tensor4 :=
  let frameSize := d1 * d2 * d3
  if numberOfFrames = 0 then .error "ZeroDivisionError"
  else
    let interval : Int :=
      pyTrunc ((buf.length : Int) - ((frameSize * numberOfFrames : Nat) : Int))
        ((numberOfFrames : Nat) : Int)
    if ((frameSize : Int) + interval) * ((numberOfFrames : Nat) : Int) ≠
        ((buf.length : Nat) : Int) then
      .error "ValueError: cannot reshape"
    else if 0 < frameSize ∧ (frameSize : Int) + interval < (frameSize : Int) then
      .error "IndexError: out of bounds"
    else
      .ok { shape := [numberOfFrames, d3, d2, d1],
            flat := transposeRevFlat d1 d2 d3 numberOfFrames
              (buf.take (frameSize * numberOfFrames)) }

/-- Embeds the time vector computation of ThreeD_Ultrasound._getData (lines
277-282): np.linspace(0, n, num=n, endpoint=False) is exactly
[0, 1, ..., n-1], and the time vector is that divided by
meta[FramesPerSec] plus timeOffset. Reals are modelled as exact rationals. -/
def timevector (no_frames : Nat) (framesPerSec timeOffset : ℚ) : List ℚ :=
  (List.range no_frames).map (fun (i : Nat) => (i : ℚ) / framesPerSec + timeOffset)

/-- The sub-type read at ThreeD_ultrasound.py line 253: the code asks the
DataElement at tag (0x200d,0x300d) for .valuex, but pydicom DataElement
objects define .value and no valuex attribute, so the read raises
AttributeError whatever string the element holds. -/
def valuex_read (element : String) : Except String String :=
  .error "AttributeError: valuex"

/-- Embeds ThreeD_Ultrasound._getData (lines 247-282): dispatch on
len(ds.SequenceOfUltrasoundRegions), then on the private sub-type tag
(0x200d,0x300d), then decode the volume and derive the time vector from
meta[no_frames] = data.shape[0]. The two sys.exit calls are modelled as the
error results the spec names UnsupportedLayout and UnknownModality. The
sub-type is read through .valuex (line 253), which raises AttributeError on
every 3-region input, so the sub-type comparison, the UnknownModality exit at
lines 257-261 and the decode-plus-time-vector path - modelled faithfully all
the same - are unreachable. -/
def getData (numRegions : Nat) (dtype : String) (d1 d2 d3 numberOfFrames : Nat)
    (buf : List Nat) (framesPerSec timeOffset : ℚ) :
    Except String (Tensor4 × List ℚ) :=
  if numRegions = 3 then
    match valuex_read dtype with
    | .error e => .error e
    | .ok tval =>
      if tval = "UDM_USD_DATATYPE_DIN_3D_ECHO" then
        match read_3D_ultra d1 d2 d3 numberOfFrames buf with
        | .error e => .error e
        | .ok t => .ok (t, timevector (t.shape.getD 0 0) framesPerSec timeOffset)
      else .error "UnknownModality"
  else .error "UnsupportedLayout"

end Satkit

namespace Satkit

/-- C1 (code bug): for the frame-major buffer the claim describes - 2 frames of
1*1*2 = 2 sample bytes each ([10,11] and [20,21]) followed by one padding byte
255 per frame - the decode succeeds but returns shape [2, 2, 1, 1] instead of
the claimed [frame_count, dim1, dim2, dim3] = [2, 1, 1, 2], and the padding
byte 255 appears in the output (while sample byte 21 is dropped): the C-order
view at line 317 does not put one frame per column, so the trailing-junk strip
the comments at lines 302-309 describe is not what the code computes. -/
theorem read_3D_ultra_padding_appears :
    read_3D_ultra 1 1 2 2 [10, 11, 255, 20, 21, 255] =
      .ok { shape := [2, 2, 1, 1], flat := [10, 255, 11, 20] } ∧
    255 ∈ [10, 255, 11, 20] ∧ [2, 2, 1, 1] ≠ [2, 1, 1, 2] := by
  refine ⟨rfl, by decide, by decide⟩

/-- C2: whenever the raw buffer is shorter than frameSize*numberOfFrames, or
the remainder after removing frameSize*numberOfFrames bytes is not an exact
multiple of numberOfFrames, the decode raises (ZeroDivisionError, ValueError
or IndexError - the failure class the spec names CorruptVolume) and never
returns a tensor built from silently truncated data. -/
theorem read_3D_ultra_corrupt_fails (d1 d2 d3 numberOfFrames : Nat)
    (buf : List Nat)
    (h : (buf.length : Int) < ((d1 * d2 * d3 * numberOfFrames : Nat) : Int) ∨
      ¬ ((numberOfFrames : Int) ∣
          ((buf.length : Int) - ((d1 * d2 * d3 * numberOfFrames : Nat) : Int)))) :
    ∃ e, read_3D_ultra d1 d2 d3 numberOfFrames buf = .error e := by
  by_cases hf : numberOfFrames = 0
  · subst hf
    exact ⟨"ZeroDivisionError", by simp [read_3D_ultra]⟩
  · have hfpos : (0 : Int) < numberOfFrames := by
      exact_mod_cast Nat.pos_of_ne_zero hf
    simp only [read_3D_ultra, pyTrunc, if_neg hf]
    split
    · exact ⟨_, rfl⟩
    · split
      · exact ⟨_, rfl⟩
      · -- both numpy checks pass: derive a contradiction with h
        rename_i hC1 hC2
        exfalso
        rw [not_ne_iff] at hC1
        rw [not_and_or, not_lt, not_lt] at hC2
        set fs : Nat := d1 * d2 * d3 with hfs
        have hpc : ((fs * numberOfFrames : Nat) : Int) =
            (fs : Int) * ((numberOfFrames : Nat) : Int) := by push_cast; ring
        -- the reshape only succeeds when the remainder is an exact multiple
        have hdvd : ((numberOfFrames : Nat) : Int) ∣
            ((buf.length : Int) - ((fs * numberOfFrames : Nat) : Int)) := by
          refine ⟨Int.tdiv ((buf.length : Int) - ((fs * numberOfFrames : Nat) : Int))
            ((numberOfFrames : Nat) : Int), ?_⟩
          linear_combination -hC1 - hpc
        rcases h with h1 | h2
        · -- the buffer is too short: the kept row count falls below frameSize,
          -- so the IndexError test cannot have been passed
          have hDneg : (buf.length : Int) - ((fs * numberOfFrames : Nat) : Int) < 0 := by
            linarith
          have hqmul : Int.tdiv ((buf.length : Int) - ((fs * numberOfFrames : Nat) : Int))
              ((numberOfFrames : Nat) : Int) * ((numberOfFrames : Nat) : Int) =
              (buf.length : Int) - ((fs * numberOfFrames : Nat) : Int) :=
            Int.tdiv_mul_cancel hdvd
          have hqneg : Int.tdiv ((buf.length : Int) - ((fs * numberOfFrames : Nat) : Int))
              ((numberOfFrames : Nat) : Int) < 0 := by
            by_contra hge
            push_neg at hge
            have hnn : (0 : Int) ≤ Int.tdiv ((buf.length : Int) -
                ((fs * numberOfFrames : Nat) : Int)) ((numberOfFrames : Nat) : Int) *
                ((numberOfFrames : Nat) : Int) := mul_nonneg hge hfpos.le
            linarith
          rcases hC2 with hfz | hge
          · -- frameSize = 0 would force a nonnegative remainder
            have hz : fs = 0 := by omega
            rw [hz] at hDneg
            simp only [Nat.zero_mul, Nat.cast_zero, sub_zero] at hDneg
            have : (0 : Int) ≤ (buf.length : Int) := Int.natCast_nonneg _
            linarith
          · linarith
        · exact h2 hdvd

/-- Witness for the corrupt-volume law at a concrete input: a buffer of length
5 for 2 declared frames of 1*1*2 bytes leaves a remainder of 1 byte, which is
not a multiple of the frame count, and the decode raises. -/
theorem read_3D_ultra_corrupt_fails_witness :
    ∃ e, read_3D_ultra 1 1 2 2 [0, 0, 0, 0, 0] = .error e :=
  read_3D_ultra_corrupt_fails 1 1 2 2 [0, 0, 0, 0, 0] (by decide)

/-- On every successful decode the tensor shape is
[numberOfFrames, d3, d2, d1] (the C-order relabel followed by the
all-axis-reversing np.transpose). -/
theorem read_3D_ultra_ok_shape (d1 d2 d3 numberOfFrames : Nat) (buf : List Nat)
    (t : Tensor4) (h : read_3D_ultra d1 d2 d3 numberOfFrames buf = .ok t) :
    t.shape = [numberOfFrames, d3, d2, d1] := by
  simp only [read_3D_ultra] at h
  split at h
  · simp at h
  · split at h
    · simp at h
    · split at h
      · simp at h
      · rw [Except.ok.injEq] at h
        rw [← h]

theorem timevector_length (no_frames : Nat) (framesPerSec timeOffset : ℚ) :
    (timevector no_frames framesPerSec timeOffset).length = no_frames := by
  rw [timevector, List.length_map, List.length_range]

theorem timevector_getD (no_frames i : Nat) (framesPerSec timeOffset : ℚ)
    (h : i < no_frames) :
    (timevector no_frames framesPerSec timeOffset).getD i 0 =
      (i : ℚ) / framesPerSec + timeOffset := by
  rw [timevector, List.getD_eq_getElem _ _ (by
    rw [List.length_map, List.length_range]; exact h)]
  rw [List.getElem_map, List.getElem_range]

/-- C3 (code bug): no execution of _getData ever produces a decoded recording,
because the sub-type read at line 253 (.valuex) raises AttributeError on every
3-region input and the other region counts exit - so the claim quantifies
over an empty set of runs; the time vector computation the claim describes
(lines 277-282, embedded as timevector and unreachable behind that read) does
obey the claimed law: one entry per frame,
time_vector[i] = i / framesPerSec + timeOffset at every in-bounds index, and
strictly increasing whenever framesPerSec is positive. -/
theorem getData_no_successful_decode_timevector_law (numRegions : Nat)
    (dtype : String) (d1 d2 d3 numberOfFrames : Nat) (buf : List Nat)
    (framesPerSec timeOffset : ℚ) (t : Tensor4) (tv : List ℚ)
    (no_frames i j : Nat) (hi : i < no_frames) (hj : j < no_frames) :
    getData numRegions dtype d1 d2 d3 numberOfFrames buf framesPerSec
      timeOffset ≠ .ok (t, tv) ∧
    (timevector no_frames framesPerSec timeOffset).length = no_frames ∧
    (timevector no_frames framesPerSec timeOffset).getD i 0 =
      (i : ℚ) / framesPerSec + timeOffset ∧
    (timevector no_frames framesPerSec timeOffset).getD j 0 =
      (j : ℚ) / framesPerSec + timeOffset ∧
    (0 < framesPerSec → i < j →
      (timevector no_frames framesPerSec timeOffset).getD i 0 <
        (timevector no_frames framesPerSec timeOffset).getD j 0) := by
  refine ⟨?_, timevector_length _ _ _, timevector_getD _ _ _ _ hi,
    timevector_getD _ _ _ _ hj, ?_⟩
  · simp only [getData]
    split
    · simp [valuex_read]
    · simp
  · intro hfps hij
    rw [timevector_getD _ _ _ _ hi, timevector_getD _ _ _ _ hj]
    have hcast : (i : ℚ) < (j : ℚ) := by exact_mod_cast hij
    have := div_lt_div_of_pos_right hcast hfps
    linarith

/-- Witness at a concrete input: the decode of C1's 2-frame file cannot be
returned even with the recognised sub-type tag, and the embedded time vector
computation for 2 frames at 2 frames per second with zero offset obeys the
law. -/
theorem getData_no_successful_decode_timevector_law_witness :
    getData 3 "UDM_USD_DATATYPE_DIN_3D_ECHO" 1 1 2 2 [10, 11, 255, 20, 21, 255]
      2 0 ≠ .ok ({ shape := [2, 2, 1, 1], flat := [10, 255, 11, 20] },
        timevector 2 2 0) ∧
    (timevector 2 2 0).length = 2 ∧
    (timevector 2 2 0).getD 0 0 = (0 : ℚ) / 2 + 0 ∧
    (timevector 2 2 0).getD 1 0 = (1 : ℚ) / 2 + 0 ∧
    (timevector 2 2 0).getD 0 0 < (timevector 2 2 0).getD 1 0 := by
  obtain ⟨h1, h2, h3, h4, h5⟩ := getData_no_successful_decode_timevector_law 3
    "UDM_USD_DATATYPE_DIN_3D_ECHO" 1 1 2 2 [10, 11, 255, 20, 21, 255] 2 0
    { shape := [2, 2, 1, 1], flat := [10, 255, 11, 20] } (timevector 2 2 0) 2 0 1
    (by decide) (by decide)
  exact ⟨h1, h2, h3, h4, h5 (by norm_num) (by decide)⟩

/-- C4 (code bug): a region count other than 3 does fail fast with the error
the spec names UnsupportedLayout, but every 3-region input - whatever its
sub-type tag, the recognised 3D-echo string included - raises AttributeError
at line 253 (.valuex is not a pydicom DataElement attribute) before the
sub-type is ever compared, so the UnknownModality exit at lines 257-261 is
dead code and the claimed unknown-sub-type failure never happens. -/
theorem getData_three_regions_attribute_error (numRegions : Nat)
    (dtype : String) (d1 d2 d3 numberOfFrames : Nat) (buf : List Nat)
    (framesPerSec timeOffset : ℚ) :
    (numRegions ≠ 3 →
      getData numRegions dtype d1 d2 d3 numberOfFrames buf framesPerSec
        timeOffset = .error "UnsupportedLayout") ∧
    (numRegions = 3 →
      getData numRegions dtype d1 d2 d3 numberOfFrames buf framesPerSec
        timeOffset = .error "AttributeError: valuex" ∧
      getData numRegions dtype d1 d2 d3 numberOfFrames buf framesPerSec
        timeOffset ≠ .error "UnknownModality") := by
  constructor
  · intro hn
    simp [getData, hn]
  · intro hn
    subst hn
    constructor
    · simp [getData, valuex_read]
    · simp [getData, valuex_read]

/-- Witness for the dispatch behaviour: 2 declared regions give the
unsupported-layout error, and 3 regions with an unrecognised sub-type raise
AttributeError instead of the unknown-modality exit. -/
theorem getData_three_regions_attribute_error_witness :
    getData 2 "UDM_USD_DATATYPE_DIN_3D_ECHO" 1 1 1 1 [0] 1 0 =
      .error "UnsupportedLayout" ∧
    getData 3 "UDM_USD_DATATYPE_3D_OTHER" 1 1 1 1 [0] 1 0 =
      .error "AttributeError: valuex" ∧
    getData 3 "UDM_USD_DATATYPE_3D_OTHER" 1 1 1 1 [0] 1 0 ≠
      .error "UnknownModality" :=
  ⟨(getData_three_regions_attribute_error 2 "UDM_USD_DATATYPE_DIN_3D_ECHO"
      1 1 1 1 [0] 1 0).1 (by decide),
   ((getData_three_regions_attribute_error 3 "UDM_USD_DATATYPE_3D_OTHER"
      1 1 1 1 [0] 1 0).2 rfl).1,
   ((getData_three_regions_attribute_error 3 "UDM_USD_DATATYPE_3D_OTHER"
      1 1 1 1 [0] 1 0).2 rfl).2⟩

/-- One decoded session-notes entry: the dict built at ThreeD_ultrasound.py
lines 397-402. The datetime object produced by strptime is abstracted as a
Nat-valued timestamp token; the trial number and prompt are carried over from
the row fields. -/
structure MetaToken where
  trial_number : String
  prompt : String
  date_and_time : Nat
  dat_file_name : String
deriving DecidableEq

/-- PureWindowsPath(file_path).name: the last nonempty path component, with
both the Windows and the POSIX separator recognised (drive letters do not
occur in the filenames this code handles). -/
def windowsPathName (s : String) : String :=
  ((((s.split (fun c => c = '\\' || c = '/'))).filter (fun t => t ≠ "")).getLast?).getD ""

/-- Embeds the per-row body of ThreeD_UltrasoundRecording.readMetaFromMat
(lines 383-403). datetime.strptime(s, the timestamp format) is abstracted as
the parameter strp, which returns some timestamp exactly when s matches the
format; its none case is the ValueError the source catches for field 4 and
lets propagate for field 5. Rows with at most 5 fields are skipped. -/
def processRow (strp : String → Option Nat) (element : List String) :
    Except String (Option MetaToken) :=
  if 5 < element.length then
    match strp (element.getD 4 "") with
    | some d =>
        .ok (some { trial_number := element.getD 0 "", prompt := element.getD 1 "",
                    date_and_time := d,
                    dat_file_name := windowsPathName (element.getD 5 "") })
    | none =>
        match strp (element.getD 5 "") with
        | some d =>
            .ok (some { trial_number := element.getD 0 "", prompt := element.getD 1 "",
                        date_and_time := d,
                        dat_file_name := windowsPathName (element.getD 4 "") })
        | none => .error "ValueError: MalformedTimestamp"
  else .ok none

/-- Embeds ThreeD_UltrasoundRecording.readMetaFromMat (lines 359-404) over the
rows of mat[officialNotes]: each qualifying row contributes one MetaToken, and
an uncaught ValueError aborts the whole parse. -/
def readMetaFromMat (strp : String → Option Nat) :
    List (List String) → Except String (List MetaToken)
  | [] => .ok []
  | element :: rest =>
    match processRow strp element with
    | .error e => .error e
    | .ok tok =>
      match readMetaFromMat strp rest with
      | .error e => .error e
      | .ok ms => .ok (match tok with | some m => m :: ms | none => ms)

/-- The same session-notes row with the timestamp and filename fields (indices
4 and 5) swapped. -/
def swap45 (element : List String) : List String :=
  (element.set 4 (element.getD 5 "")).set 5 (element.getD 4 "")

/-- C6: for a row with more than 5 fields whose field 5 is not
timestamp-formatted (a filename), the row and the row with fields 4 and 5
swapped parse to identical results - so in particular to identical
MetaTokens when one of them parses - and when neither field is
timestamp-formatted the record is rejected with the propagated ValueError
(the failure the spec names MalformedTimestamp). -/
theorem readMetaFromMat_field_order_fallback (strp : String → Option Nat)
    (element : List String) (h6 : 5 < element.length) :
    (strp (element.getD 5 "") = none →
      processRow strp (swap45 element) = processRow strp element) ∧
    (strp (element.getD 4 "") = none → strp (element.getD 5 "") = none →
      processRow strp element = .error "ValueError: MalformedTimestamp") := by
  have h4 : 4 < element.length := by omega
  have h5 : 5 < element.length := h6
  have hlen : (swap45 element).length = element.length := by
    rw [swap45, List.length_set, List.length_set]
  have hget4 : (swap45 element).getD 4 "" = element.getD 5 "" := by
    rw [swap45, List.getD_eq_getElem _ _ (by rw [List.length_set, List.length_set]; exact h4),
      List.getElem_set_ne (by omega), List.getElem_set_self,
      List.getD_eq_getElem _ _ h5]
  have hget5 : (swap45 element).getD 5 "" = element.getD 4 "" := by
    rw [swap45, List.getD_eq_getElem _ _ (by rw [List.length_set, List.length_set]; exact h5),
      List.getElem_set_self, List.getD_eq_getElem _ _ h4]
  have hget0 : (swap45 element).getD 0 "" = element.getD 0 "" := by
    rw [swap45, List.getD_eq_getElem _ _ (by rw [List.length_set, List.length_set]; omega),
      List.getElem_set_ne (by omega), List.getElem_set_ne (by omega),
      List.getD_eq_getElem _ _ (show 0 < element.length by omega)]
  have hget1 : (swap45 element).getD 1 "" = element.getD 1 "" := by
    rw [swap45, List.getD_eq_getElem _ _ (by rw [List.length_set, List.length_set]; omega),
      List.getElem_set_ne (by omega), List.getElem_set_ne (by omega),
      List.getD_eq_getElem _ _ (show 1 < element.length by omega)]
  constructor
  · intro hfile
    rw [processRow, processRow, if_pos h6, if_pos (by rw [hlen]; exact h6)]
    rw [hget4, hget5, hget0, hget1, hfile]
  · intro hts hfile
    rw [processRow, if_pos h6, hts, hfile]

/-- Witness for the field-order fallback at a concrete row: the timestamp in
field 4 and a Windows path in field 5 parse the same way after swapping, and a
row with no timestamp-formatted field in either position is rejected. -/
theorem readMetaFromMat_field_order_fallback_witness :
    processRow (fun s => if s = "21-Oct-2021 10:40:30" then some 737719 else none)
      (swap45 ["7", "papa", "x", "y", "21-Oct-2021 10:40:30", "C:\\DAT\\T07.dat"]) =
    processRow (fun s => if s = "21-Oct-2021 10:40:30" then some 737719 else none)
      ["7", "papa", "x", "y", "21-Oct-2021 10:40:30", "C:\\DAT\\T07.dat"] ∧
    processRow (fun s => if s = "21-Oct-2021 10:40:30" then some 737719 else none)
      ["7", "papa", "x", "y", "not a date", "T07.dat"] =
      .error "ValueError: MalformedTimestamp" :=
  ⟨(readMetaFromMat_field_order_fallback
      (fun s => if s = "21-Oct-2021 10:40:30" then some 737719 else none)
      ["7", "papa", "x", "y", "21-Oct-2021 10:40:30", "C:\\DAT\\T07.dat"]
      (by decide)).1 (by decide),
   (readMetaFromMat_field_order_fallback
      (fun s => if s = "21-Oct-2021 10:40:30" then some 737719 else none)
      ["7", "papa", "x", "y", "not a date", "T07.dat"]
      (by decide)).2 (by decide) (by decide)⟩

/-- Embeds the ThreeD_Ultrasound.data setter (ThreeD_ultrasound.py lines
331-342), run on an object whose current stored value is the first argument:
assigning anything but None raises NotImplementedError; assigning None stores
None. The result is the stored value after the assignment. -/
def data_setter (current newValue : Option Tensor4) :
    Except String (Option Tensor4) :=
  match newValue with
  | some _ => .error "NotImplementedError"
  | none => .ok none

/-- C7: when data is already populated, assigning any non-absent value raises
NotImplementedError (the failure the spec names AlreadyLoaded), while
assigning None - the release path the annotator uses between recordings -
always succeeds and clears the stored data. -/
theorem data_setter_already_loaded (current : Option Tensor4)
    (t newData : Tensor4) (h : current = some t) :
    data_setter current (some newData) = .error "NotImplementedError" ∧
    data_setter current none = .ok none :=
  ⟨rfl, rfl⟩

/-- Witness for the populated-data setter law at a concrete loaded tensor. -/
theorem data_setter_already_loaded_witness :
    data_setter (some { shape := [1], flat := [0] }) (some { shape := [1], flat := [9] }) =
      .error "NotImplementedError" ∧
    data_setter (some { shape := [1], flat := [0] }) none = .ok none :=
  data_setter_already_loaded (some { shape := [1], flat := [0] })
    { shape := [1], flat := [0] } { shape := [1], flat := [9] } rfl

/-- C10: the setter rejects every non-None assignment whatever the current
state is - populated, never loaded, or released - and accepts exactly None,
so no direct assignment ever populates data. -/
theorem data_setter_only_none_accepted (current : Option Tensor4)
    (newData : Tensor4) :
    data_setter current (some newData) = .error "NotImplementedError" ∧
    data_setter current none = .ok none ∧
    (data_setter current (some newData)).isOk = false :=
  ⟨rfl, rfl, rfl⟩

/-- A value stored in a meta dict: the source stores strings, booleans and
numbers or datetime objects (the latter modelled as Nat timestamps). -/
inductive MetaVal
  | s (v : String)
  | b (v : Bool)
  | n (v : Nat)
deriving DecidableEq

/-- A Python dict, modelled as an association list in which the leftmost
binding of a key is its current value. -/
abbrev Meta := List (String × MetaVal)

/-- dict.update(upd): afterwards a lookup sees the bindings of upd first and
falls back to the previous contents for the other keys. -/
def dictUpdate (base upd : Meta) : Meta := upd ++ base

/-- The constructor arguments of a modality object (ThreeD_Ultrasound or
LipVideo, ThreeD_ultrasound.py lines 188-215); the decoded buffer contents are
irrelevant to the lifecycle claims. -/
structure ModalityState where
  filename : MetaVal
  preloaded : Bool
deriving DecidableEq

/-- The Recording aggregate. The base class satkit.recording.Recording is not
among the sources; its fields are modelled from the spec, section 3: a
basename, a path, an incrementally filled meta mapping, the monotonic
exclusion flag and the named modalities. -/
structure RecordingState where
  basename : String
  path : String
  meta : Meta
  excluded : Bool
  modalities : List (String × ModalityState)
deriving DecidableEq

instance : Inhabited RecordingState :=
  ⟨{ basename := "", path := "", meta := [], excluded := false, modalities := [] }⟩

/-- ThreeD_UltrasoundRecording.requiredMetaKeys (lines 352-357). -/
def requiredMetaKeys : List String :=
  ["trial_number", "prompt", "date_and_time", "dat_file_name"]

/-- The Python values that reach the meta parameter of addMeta: None, one
record dict, or - as generateRecordingList line 102 actually passes - the
whole list of record dicts. -/
inductive MetaArg
  | noneV
  | dict (m : Meta)
  | listV (l : List Meta)
deriving DecidableEq

/-- Embeds ThreeD_UltrasoundRecording.addMeta (lines 454-488). With None the
body is skipped; with a dict, the comprehension picks exactly the required
keys - a missing key raises KeyError, caught and turned into sys.exit
(modelled as the error the spec names IncompleteMetadata) - and
self.meta.update merges them; with a list, meta[key] with a string key raises
TypeError, which the except KeyError clause does not catch. -/
def addMeta (r : RecordingState) (meta : MetaArg) : Except String RecordingState :=
  match meta with
  | .noneV => .ok r
  | .listV _ => .error "TypeError"
  | .dict m =>
    if requiredMetaKeys.all (fun key => (m.lookup key).isSome) then
      .ok { r with
            meta := dictUpdate r.meta
              (requiredMetaKeys.filterMap
                (fun key => (m.lookup key).map (fun v => (key, v)))) }
    else .error "IncompleteMetadata"

/-- The meta mapping of the recording an addMeta call returns (empty on a
raised error, where no recording is returned at all). -/
def metaAfter (x : Except String RecordingState) : Meta :=
  match x with
  | .ok r => r.meta
  | .error _ => []

/-- Modelled from the spec: satkit.recording.Recording.addModality is not
among the sources; spec section 4.3: add_modality(name, modality) fails with
DuplicateModality when the name is already present, and otherwise stores the
modality under the name, leaving the other fields alone. -/
def addModality (r : RecordingState) (name : String) (modality : ModalityState) :
    Except String RecordingState :=
  if (r.modalities.lookup name).isSome then .error "DuplicateModality"
  else .ok { r with modalities := (name, modality) :: r.modalities }

/-- Python truthiness of a metadata value, for
`if recording.meta['video_exists']:` at line 198. -/
def truthy : MetaVal → Bool
  | .s v => v ≠ ""
  | .b v => v
  | .n v => v ≠ 0

/-- Embeds addModalities (ThreeD_ultrasound.py lines 148-218). Subscripting
the meta dict raises KeyError when the key is absent. The MonoAudio section is
commented out in the source; the ultrasound modality is always attached, and
the LipVideo modality only when meta[video_exists] is truthy. -/
def addModalities (recording : RecordingState)
    (wavPreload ultPreload videoPreload : Bool) : Except String RecordingState :=
  match recording.meta.lookup "basename" with
  | none => .error "KeyError"
  | some _ =>
    match recording.meta.lookup "ult_file" with
    | none => .error "KeyError"
    | some ult_file =>
      match addModality recording "ThreeD_Ultrasound"
          { filename := ult_file, preloaded := ultPreload } with
      | .error e => .error e
      | .ok r1 =>
        match recording.meta.lookup "video_exists" with
        | none => .error "KeyError"
        | some video_exists =>
          if truthy video_exists then
            match recording.meta.lookup "video_file" with
            | none => .error "KeyError"
            | some video_file =>
                addModality r1 "LipVideo"
                  { filename := video_file, preloaded := videoPreload }
          else .ok r1

/-- Modelled from the spec: Recording.exclude is not among the sources; spec
section 4.3: exclude() sets excluded=true irreversibly. -/
def exclude (r : RecordingState) : RecordingState := { r with excluded := true }

/-- Embeds set_exclusions_from_file (exclusion_list.py lines 39-60). The
filename argument is modelled as the parsed tab-separated rows it denotes
(none models a None filename, the valid no-exclusions state); the exclusion
list is the first field of every nonempty row, and every recording whose
basename is listed is excluded. -/
def set_exclusions_from_file (rows : Option (List (List String)))
    (recordings : List RecordingState) : List RecordingState :=
  let exclusion_list : List String :=
    match rows with
    | some rs => rs.filterMap (fun row => row.head?)
    | none => []
  recordings.map (fun recording =>
    if recording.basename ∈ exclusion_list then exclude recording else recording)

/-- The exclusion flag of the recording an operation returns; a raised error
returns no recording, so nothing is un-excluded there either. -/
def excludedAfter (x : Except String RecordingState) : Bool :=
  match x with
  | .ok r => r.excluded
  | .error _ => true

theorem addModality_ok_excluded (r r2 : RecordingState) (name : String)
    (modality : ModalityState) (h : addModality r name modality = .ok r2) :
    r2.excluded = r.excluded := by
  simp only [addModality] at h
  split at h
  · simp at h
  · rw [Except.ok.injEq] at h
    rw [← h]

theorem excludedAfter_addModality (r : RecordingState) (name : String)
    (modality : ModalityState) (hr : r.excluded = true) :
    excludedAfter (addModality r name modality) = true := by
  simp only [addModality]
  split
  · rfl
  · simpa [excludedAfter] using hr

/-- C8: addMeta on a record dict aborts with the error the spec names
IncompleteMetadata whenever one of the required keys (trial_number, prompt,
date_and_time, dat_file_name) is absent; when all are present it succeeds, the
required key-value pairs afterwards read from the record, and every other key
keeps its previous recording-side value, so unrelated extra keys of the
record are discarded. -/
theorem addMeta_required_keys (r : RecordingState) (m : Meta) (k : String) :
    (k ∈ requiredMetaKeys → m.lookup k = none →
      addMeta r (.dict m) = .error "IncompleteMetadata") ∧
    ((∀ key ∈ requiredMetaKeys, (m.lookup key).isSome = true) →
      (addMeta r (.dict m)).isOk = true ∧
      (metaAfter (addMeta r (.dict m))).lookup k =
        (if k ∈ requiredMetaKeys then m.lookup k else r.meta.lookup k)) := by
  constructor
  · intro hk hnone
    have hcond : ¬ (requiredMetaKeys.all (fun key => (m.lookup key).isSome) = true) := by
      intro hc
      have := List.all_eq_true.mp hc k hk
      rw [hnone] at this
      simp at this
    simp only [addMeta]
    rw [if_neg hcond]
  · intro hall
    have hcond : requiredMetaKeys.all (fun key => (m.lookup key).isSome) = true :=
      List.all_eq_true.mpr hall
    obtain ⟨v1, h1⟩ := Option.isSome_iff_exists.mp
      (hall "trial_number" (by simp [requiredMetaKeys]))
    obtain ⟨v2, h2⟩ := Option.isSome_iff_exists.mp
      (hall "prompt" (by simp [requiredMetaKeys]))
    obtain ⟨v3, h3⟩ := Option.isSome_iff_exists.mp
      (hall "date_and_time" (by simp [requiredMetaKeys]))
    obtain ⟨v4, h4⟩ := Option.isSome_iff_exists.mp
      (hall "dat_file_name" (by simp [requiredMetaKeys]))
    have hw : requiredMetaKeys.filterMap
        (fun key => (m.lookup key).map (fun v => (key, v))) =
        [("trial_number", v1), ("prompt", v2), ("date_and_time", v3),
          ("dat_file_name", v4)] := by
      simp [requiredMetaKeys, h1, h2, h3, h4]
    simp only [addMeta]
    rw [if_pos hcond]
    refine ⟨rfl, ?_⟩
    simp only [metaAfter, dictUpdate, hw]
    by_cases hk : k ∈ requiredMetaKeys
    · rw [if_pos hk]
      have hcases : k = "trial_number" ∨ k = "prompt" ∨ k = "date_and_time" ∨
          k = "dat_file_name" := by simpa [requiredMetaKeys] using hk
      rcases hcases with rfl | rfl | rfl | rfl
      · rw [h1]; simp [List.lookup]
      · rw [h2]; simp [List.lookup]
      · rw [h3]; simp [List.lookup]
      · rw [h4]; simp [List.lookup]
    · rw [if_neg hk]
      have hne : ¬ k = "trial_number" ∧ ¬ k = "prompt" ∧ ¬ k = "date_and_time" ∧
          ¬ k = "dat_file_name" := by
        simpa [requiredMetaKeys, not_or] using hk
      obtain ⟨hn1, hn2, hn3, hn4⟩ := hne
      simp [List.lookup, beq_eq_false_iff_ne.mpr hn1, beq_eq_false_iff_ne.mpr hn2,
        beq_eq_false_iff_ne.mpr hn3, beq_eq_false_iff_ne.mpr hn4]

/-- A concrete recording used in the lifecycle witnesses: basename T01, the
given meta bindings and exclusion flag, no modalities yet. -/
def witnessRecording (metaList : Meta) (excl : Bool) : RecordingState :=
  { basename := "T01", path := "p", meta := metaList, excluded := excl,
    modalities := [] }

/-- A concrete complete metadata record with one unrelated junk key. -/
def goodRecord : Meta :=
  [("trial_number", MetaVal.n 7), ("prompt", MetaVal.s "papa"),
    ("date_and_time", MetaVal.n 737719), ("dat_file_name", MetaVal.s "T07.dat"),
    ("junk", MetaVal.s "drop")]

/-- Witness for the addMeta contract: a record missing prompt aborts; a
complete record with an unrelated junk key merges the required pairs and
leaves both the junk key and a pre-existing recording key untouched. -/
theorem addMeta_required_keys_witness :
    addMeta (witnessRecording [("extra", MetaVal.s "kept")] false)
      (.dict [("trial_number", MetaVal.n 7)]) = .error "IncompleteMetadata" ∧
    (addMeta (witnessRecording [("extra", MetaVal.s "kept")] false)
      (.dict goodRecord)).isOk = true ∧
    (metaAfter (addMeta (witnessRecording [("extra", MetaVal.s "kept")] false)
      (.dict goodRecord))).lookup "prompt" =
      (if "prompt" ∈ requiredMetaKeys then goodRecord.lookup "prompt"
        else (witnessRecording [("extra", MetaVal.s "kept")] false).meta.lookup "prompt") ∧
    (metaAfter (addMeta (witnessRecording [("extra", MetaVal.s "kept")] false)
      (.dict goodRecord))).lookup "junk" =
      (if "junk" ∈ requiredMetaKeys then goodRecord.lookup "junk"
        else (witnessRecording [("extra", MetaVal.s "kept")] false).meta.lookup "junk") :=
  ⟨(addMeta_required_keys (witnessRecording [("extra", MetaVal.s "kept")] false)
      [("trial_number", MetaVal.n 7)] "prompt").1 (by decide) (by decide),
   ((addMeta_required_keys (witnessRecording [("extra", MetaVal.s "kept")] false)
      goodRecord "prompt").2 (by decide)).1,
   ((addMeta_required_keys (witnessRecording [("extra", MetaVal.s "kept")] false)
      goodRecord "prompt").2 (by decide)).2,
   ((addMeta_required_keys (witnessRecording [("extra", MetaVal.s "kept")] false)
      goodRecord "junk").2 (by decide)).2⟩

/-- C9: once a recording is excluded, a metadata merge (addMeta), a modality
attach (addModalities) and an exclusion-list application
(set_exclusions_from_file) each leave it excluded - none of them ever resets
the flag to false. -/
theorem excluded_monotonic (r : RecordingState) (arg : MetaArg)
    (wavPreload ultPreload videoPreload : Bool)
    (rows : Option (List (List String))) (recordings : List RecordingState)
    (i : Nat) (hr : r.excluded = true) (hi : i < recordings.length)
    (hir : recordings.getD i default = r) :
    excludedAfter (addMeta r arg) = true ∧
    excludedAfter (addModalities r wavPreload ultPreload videoPreload) = true ∧
    ((set_exclusions_from_file rows recordings).getD i default).excluded = true := by
  refine ⟨?_, ?_, ?_⟩
  · cases arg with
    | noneV => simpa [addMeta, excludedAfter] using hr
    | listV l => rfl
    | dict m =>
      simp only [addMeta]
      split
      · simpa [excludedAfter] using hr
      · rfl
  · simp only [addModalities]
    split
    · rfl
    · split
      · rfl
      · split
        · rfl
        · rename_i r1 heq
          have hr1 : r1.excluded = true := by
            rw [addModality_ok_excluded r r1 "ThreeD_Ultrasound" _ heq]
            exact hr
          split
          · rfl
          · split
            · split
              · rfl
              · exact excludedAfter_addModality r1 "LipVideo" _ hr1
            · simpa [excludedAfter] using hr1
  · simp only [set_exclusions_from_file]
    rw [List.getD_eq_getElem _ _ (by rw [List.length_map]; exact hi),
      List.getElem_map]
    have hrr : recordings[i] = r := by
      rw [← hir, List.getD_eq_getElem _ _ hi]
    rw [hrr]
    split
    · rfl
    · exact hr

/-- Witness for exclusion monotonicity: an excluded recording stays excluded
through a None metadata merge, a modality attach (which raises KeyError here
because no ultrasound file was recorded in meta), and an exclusion-list pass
that lists its basename. -/
theorem excluded_monotonic_witness :
    excludedAfter (addMeta (witnessRecording [("basename", MetaVal.s "T01")] true)
      .noneV) = true ∧
    excludedAfter (addModalities (witnessRecording [("basename", MetaVal.s "T01")] true)
      true false false) = true ∧
    ((set_exclusions_from_file (some [["T01", "too noisy"]])
      [witnessRecording [("basename", MetaVal.s "T01")] true]).getD 0
        default).excluded = true :=
  excluded_monotonic (witnessRecording [("basename", MetaVal.s "T01")] true)
    .noneV true false false (some [["T01", "too noisy"]])
    [witnessRecording [("basename", MetaVal.s "T01")] true] 0 rfl (by decide) rfl

/-- The file-system facts generateRecordingList and the recording constructor
consult: the directory listings the two glob calls iterate and
os.path.isfile. -/
structure DirEnv where
  dcmFiles : List String
  matFiles : List String
  isfile : String → Bool

/-- os.path.join(path, name) for the plain relative names used here. -/
def pathJoin (path name : String) : String := path ++ "/" ++ name

/-- Embeds ThreeD_UltrasoundRecording.__init__ (ThreeD_ultrasound.py lines
406-452). The base Recording.__init__ is not among the sources; modelled from
the spec (section 3) it stores basename and path, starts non-excluded with no
modalities, and seeds meta with the basename (addModalities line 172 reads
meta[basename]). Each companion file is then checked with os.path.isfile: a
missing .wav or .DCM excludes the recording, and a missing .avi excludes it
only when requireVideo is set. -/
def threeD_UltrasoundRecording_init (isfile : String → Bool)
    (path basename : String) (requireVideo : Bool) : RecordingState :=
  let ult_wav_file := pathJoin path (basename ++ ".wav")
  let ult_file := pathJoin path (basename ++ ".DCM")
  let video_file := pathJoin path (basename ++ ".avi")
  let r0 : RecordingState :=
    { basename := basename, path := path, meta := [("basename", MetaVal.s basename)],
      excluded := false, modalities := [] }
  let r1 :=
    if isfile ult_wav_file then
      { r0 with meta := ("ult_wav_exists", MetaVal.b true) ::
          ("ult_wav_file", MetaVal.s ult_wav_file) :: r0.meta }
    else
      { r0 with meta := ("ult_wav_exists", MetaVal.b false) :: r0.meta,
                excluded := true }
  let r2 :=
    if isfile ult_file then
      { r1 with meta := ("ult_exists", MetaVal.b true) ::
          ("ult_file", MetaVal.s ult_file) :: r1.meta }
    else
      { r1 with meta := ("ult_exists", MetaVal.b false) :: r1.meta,
                excluded := true }
  if isfile video_file then
    { r2 with meta := ("video_exists", MetaVal.b true) ::
        ("video_file", MetaVal.s video_file) :: r2.meta }
  else
    { r2 with meta := ("video_exists", MetaVal.b false) :: r2.meta,
              excluded := r2.excluded || requireVideo }

/-- A Python generator object, as returned by pathlib.Path.glob. -/
structure PyGen (α : Type) where
  items : List α

/-- Subscripting a generator: generators implement no item access, so gen[i]
raises TypeError whatever the generator holds and whatever the index is. -/
def pyGenSubscript {α : Type} (g : PyGen α) (i : Nat) : Except String α :=
  .error "TypeError: generator object is not subscriptable"

/-- One reconciled metadata record viewed as the dict addMeta receives
(readMetaFromMat returns a list of these dicts). -/
def metaTokenToMeta (t : MetaToken) : Meta :=
  [("trial_number", MetaVal.s t.trial_number), ("prompt", MetaVal.s t.prompt),
    ("date_and_time", MetaVal.n t.date_and_time),
    ("dat_file_name", MetaVal.s t.dat_file_name)]

/-- A list comprehension of fallible calls
([recording.addMeta(meta) for recording in recordings]), aborting at the
first raised exception. -/
def pyMapM {α β : Type} (f : α → Except String β) : List α → Except String (List β)
  | [] => .ok []
  | a :: rest =>
    match f a with
    | .error e => .error e
    | .ok b =>
      match pyMapM f rest with
      | .error e => .error e
      | .ok bs => .ok (b :: bs)

/-- The Nat payload a date value would carry, for the sort comparison. -/
def metaValNat : MetaVal → Nat
  | .n v => v
  | _ => 0

/-- sorted(recordings, key=lambda token: token.meta[date])
(ThreeD_ultrasound.py line 114): the key callable raises KeyError when a
recording has no date key - and no step of this module ever assigns one, the
merge step stores date_and_time instead - otherwise the list is sorted by
that value. -/
def sortRecordingsByDate (recordings : List RecordingState) :
    Except String (List RecordingState) :=
  if recordings.all (fun r => (r.meta.lookup "date").isSome) then
    .ok (recordings.mergeSort (fun a b =>
      metaValNat ((a.meta.lookup "date").getD (MetaVal.n 0)) ≤
        metaValNat ((b.meta.lookup "date").getD (MetaVal.n 0))))
  else .error "KeyError: date"

/-- Embeds generateRecordingList (ThreeD_ultrasound.py lines 57-114) over a
directory environment, with strp the abstracted timestamp parser and matRows
the rows of the notes file named by its argument. Line 89
(note_dir.glob(pattern)[0]) subscripts a generator, which raises TypeError
unconditionally, so the recording-building code after it - modelled
faithfully all the same - is unreachable; were it reached, line 102 would
pass the whole metadata list to addMeta (an uncaught TypeError, see addMeta)
and line 114 would sort by the never-assigned key date (KeyError, see
sortRecordingsByDate). Line 93 keeps the full file name, .DCM suffix
included, as the basename. -/
def generateRecordingList (env : DirEnv) (strp : String → Option Nat)
    (matRows : String → List (List String)) (directory : String) :
    Except String (List RecordingState) :=
  let dicom_files := env.dcmFiles.mergeSort (fun a b => decide (a ≤ b))
  match pyGenSubscript { items := env.matFiles } 0 with
  | .error e => .error e
  | .ok mat_file =>
    let basenames := dicom_files
    let recordings := basenames.map
      (fun basename => threeD_UltrasoundRecording_init env.isfile directory basename false)
    match readMetaFromMat strp (matRows mat_file) with
    | .error e => .error e
    | .ok meta =>
      match pyMapM (fun r => addMeta r (.listV (meta.map metaTokenToMeta))) recordings with
      | .error e => .error e
      | .ok recordings2 => sortRecordingsByDate recordings2

/-- C5 (code bug): generateRecordingList raises TypeError on every input
before a single Recording is built, because line 89 subscripts the generator
returned by Path.glob; it therefore never returns the documented
timestamp-sorted sequence with missing-file recordings merely marked
excluded. -/
theorem generateRecordingList_always_raises (env : DirEnv)
    (strp : String → Option Nat) (matRows : String → List (List String))
    (directory : String) :
    generateRecordingList env strp matRows directory =
      .error "TypeError: generator object is not subscriptable" := rfl

end Satkit
